import Mathlib

/-!
Shallow embedding of `mongolock.py` (class `MongoLock`).

The persistent store is external to the repository and is consumed only
through its contract (spec section 6): an atomic insert-if-absent keyed on
`_id`, an atomic conditional update that applies a mutation to all records
matching a predicate and reports the affected count, and a read-only
`find_one`.  We model the collection as a list of records, timestamps
(`datetime.utcnow()`) as integers supplied explicitly at each call site,
and `timedelta(seconds=n)` as integer addition.  Python values
`True`/`False`/`None` returned by `_try_get_lock` are embedded as
`Option Bool` (`some b` for a bool, `none` for Python `None`), so that the
`is not None` test at line 76 of the source is expressible faithfully.
-/

namespace MongoLock

/-- One lock document, as written by `MongoLock`: `_id` (the key),
`locked`, `owner`, `created`, `expire`.  `owner`, `created` and `expire`
are nullable (release writes `None` into all three). -/
structure LockRecord where
  id : String
  locked : Bool
  owner : Option String
  created : Option Int
  expire : Option Int
deriving Repr, DecidableEq

/-- The collection: a list of lock documents. -/
abbrev Store := List LockRecord

/-- Exceptions the embedded code can raise: `MongoLockException`
(release/touch/consistency failures) and Python's `TypeError`
(subtracting `None` datetimes in `touch`). -/
inductive MLErr where
  | mongoLockException
  | typeError
deriving Repr, DecidableEq

/-- Declared at line 17 of the source as `DEFAULT_SLEEP_STEP = 0.1`
(seconds, i.e. 100 ms).  The constant is never used anywhere in the
source. -/
def DEFAULT_SLEEP_STEP_MS : Nat := 100

/-- Store contract: atomic insert-if-absent on `_id`.  Returns `none` on a
duplicate key (`DuplicateKeyError`), otherwise the store with the new
record appended. -/
def insert (s : Store) (r : LockRecord) : Option Store :=
  if s.any (fun q => q.id == r.id) then none else some (s ++ [r])

/-- Mongo semantics of `{'expire': {'$lt': dtnow}}`: a null `expire` does
not match a `$lt` comparison against a date. -/
def expire_lt (r : LockRecord) (now : Int) : Bool :=
  match r.expire with
  | some e => decide (e < now)
  | none => false

/-- The `$or` predicate of `_try_get_lock` (lines 118-121):
`{_id: key, locked: False}` or `{_id: key, expire: {$lt: dtnow}}`. -/
def acq_matches (key : String) (now : Int) (r : LockRecord) : Bool :=
  (r.id == key && !r.locked) || (r.id == key && expire_lt r now)

/-- The mutation of `_try_get_lock` (lines 123-128): a replacement
document (no `$` operators), so every matched record is replaced by
`{locked: True, owner, created: dtnow, expire}` with its `_id` kept. -/
def acq_update (s : Store) (key owner : String) (expireAt : Option Int) (dtnow : Int) : Store :=
  s.map (fun r =>
    if acq_matches key dtnow r then
      { id := r.id, locked := true, owner := some owner,
        created := some dtnow, expire := expireAt }
    else r)

/-- Embedding of `_try_get_lock` (lines 114-132).  The store applies the
conditional update and reports the affected count `n` (store contract,
spec section 6); the update has happened even when the `n > 1` check then
raises, so the mutated store is returned in both branches.  The Python
return value (`True if n == 1 else False`, never `None`) is embedded as
`some (n == 1) : Option Bool`. -/
def try_get_lock (s : Store) (key owner : String) (expireAt : Option Int) (dtnow : Int) :
    Store × Except MLErr (Option Bool) :=
  if (s.filter (acq_matches key dtnow)).length > 1 then
    (acq_update s key owner expireAt dtnow, .error .mongoLockException)
  else
    (acq_update s key owner expireAt dtnow,
     .ok (some ((s.filter (acq_matches key dtnow)).length == 1)))

/-- Embedding of the `while True` loop of `lock` (lines 75-80).  Iteration
`i` reads `clock i = (dtnow, checknow)`: `dtnow` is the `utcnow()` taken
inside `_try_get_lock`, `checknow` the one of the deadline test at line
79.  The test at line 76 is `is not None` applied to the value returned by
`_try_get_lock`, i.e. `Option.isSome`.  `fuel` bounds the recursion;
exhausting it yields `.ok none`, marking divergence (never reached with
positive fuel, since `_try_get_lock` never returns Python `None`). -/
def lockLoop (clock : Nat → Int × Int) (key owner : String) (expireAt : Option Int)
    (start_time : Int) (timeout : Int) :
    Nat → Nat → Store → Store × Except MLErr (Option Bool)
  | _, 0, s => (s, .ok none)
  | i, fuel + 1, s =>
    let p := try_get_lock s key owner expireAt (clock i).1
    match p.2 with
    | .error e => (p.1, .error e)
    | .ok r =>
      if r.isSome then (p.1, .ok (some true))
      else if start_time + timeout ≤ (clock i).2 then (p.1, .ok (some false))
      else lockLoop clock key owner expireAt start_time timeout (i + 1) fuel p.1

/-- Line 60 of the source:
`expire = datetime.utcnow() + timedelta(seconds=expire) if expire else None`.
Python truthiness: `None` and `0` both give `None`. -/
def expire_abs (expire_after : Option Int) (now : Int) : Option Int :=
  match expire_after with
  | none => none
  | some e => if e == 0 then none else some (now + e)

/-- Embedding of `MongoLock.lock` (lines 49-80).  `t_exp`, `t_created` and
`t_start` are the `utcnow()` readings at lines 60, 66 and 74; `clock`
feeds the loop.  The result is the final store paired with either an
exception or the Python return value (`some true` / `some false`;
`none` marks fuel exhaustion of the loop). -/
def lock (s : Store) (key owner : String) (timeout expire_after : Option Int)
    (t_exp t_created t_start : Int) (clock : Nat → Int × Int) (fuel : Nat) :
    Store × Except MLErr (Option Bool) :=
  let expireAt := expire_abs expire_after t_exp
  match insert s { id := key, locked := true, owner := some owner,
                   created := some t_created, expire := expireAt } with
  | some s2 => (s2, .ok (some true))
  | none =>
    match timeout with
    | none => (s, .ok (some false))
    | some t =>
      if t == 0 then (s, .ok (some false))
      else lockLoop clock key owner expireAt t_start t 0 fuel s

/-- The query `{'_id': key, 'owner': owner}` used by `release` (line 89)
and `touch` (lines 103 and 110). -/
def rel_matches (key : String) (owner : Option String) (r : LockRecord) : Bool :=
  r.id == key && r.owner == owner

/-- The free state `release` writes (line 90): a replacement document with
`locked=False, owner=None, created=None, expire=None`, the `_id` kept. -/
def freeRecord (id : String) : LockRecord :=
  { id := id, locked := false, owner := none, created := none, expire := none }

/-- Store contract: `find_and_modify(query, doc)` replaces the first
record matching the query with the replacement document and returns the
record's prior state (`none` when nothing matched, in which case the
store is unchanged). -/
def find_and_modify_free (key : String) (owner : Option String) :
    Store → Option LockRecord × Store
  | [] => (none, [])
  | r :: rest =>
    if rel_matches key owner r then (some r, freeRecord r.id :: rest)
    else ((find_and_modify_free key owner rest).1,
          r :: (find_and_modify_free key owner rest).2)

/-- Embedding of `MongoLock.release` (lines 82-93): find-and-modify to the
free state, then raise `MongoLockException` if nothing matched or the
prior state was already unlocked (`if not status or not status['locked']`).
The modification has already happened when the already-unlocked check
raises, so the mutated store is returned in every branch. -/
def release (s : Store) (key : String) (owner : Option String) :
    Store × Except MLErr Unit :=
  match (find_and_modify_free key owner s).1 with
  | none => ((find_and_modify_free key owner s).2, .error .mongoLockException)
  | some old =>
    if old.locked then ((find_and_modify_free key owner s).2, .ok ())
    else ((find_and_modify_free key owner s).2, .error .mongoLockException)

/-- Store contract: `find_one(query)`, the first record matching the
query. -/
def find_one (s : Store) (key : String) (owner : Option String) : Option LockRecord :=
  s.find? (rel_matches key owner)

/-- Embedding of `MongoLock.get_lock_info` (lines 95-98):
`find_one({'_id': key})`. -/
def get_lock_info (s : Store) (key : String) : Option LockRecord :=
  s.find? (fun r => r.id == key)

/-- The `$set` update of `touch` (lines 109-112): only the `expire` field
of records matching `{'_id': key, 'owner': owner}` is written. -/
def set_expire (s : Store) (key : String) (owner : Option String) (newExp : Int) : Store :=
  s.map (fun r => if rel_matches key owner r then { r with expire := some newExp } else r)

/-- Embedding of `MongoLock.touch` (lines 100-112).  `now` is the
`utcnow()` of line 108.  A record found with a non-null `expire` but a
null `created` would make Python raise `TypeError` on
`lock['expire'] - lock['created']`; that branch is embedded as
`.error .typeError` (it is unreachable for records the module itself
writes). -/
def touch (s : Store) (key : String) (owner : Option String) (now : Int) :
    Store × Except MLErr Unit :=
  match find_one s key owner with
  | none => (s, .error .mongoLockException)
  | some l =>
    match l.expire with
    | none => (s, .ok ())
    | some e =>
      match l.created with
      | none => (s, .error .typeError)
      | some c => (set_expire s key owner (now + (e - c)), .ok ())

/-- Observable outcome of one use of the context manager `__call__`. -/
inductive CallOutcome where
  | bodyOk
  | lockedExc
  | bodyExc
  | lockExc
  | diverge
deriving Repr, DecidableEq

/-- Embedding of the context manager `MongoLock.__call__` (lines 35-47).
The caller-supplied body receives the store after acquisition and either
finishes normally with a new store (`.ok`) or raises, carrying the store
at the moment of the raise (`.error`).  The generator has no
`try`/`finally`: `self.release` at line 47 runs only after a normal
`yield`.  The `Bool` in the result records whether `release` was invoked.
When `lock` returns `False`, line 41 raises `MongoLockLocked`
(`get_lock_info` at line 40 is a pure read). -/
def call_ctx (s : Store) (key owner : String) (timeout expire_after : Option Int)
    (t_exp t_created t_start : Int) (clock : Nat → Int × Int) (fuel : Nat)
    (body : Store → Except Store Store) : Store × CallOutcome × Bool :=
  match lock s key owner timeout expire_after t_exp t_created t_start clock fuel with
  | (s1, .error _) => (s1, .lockExc, false)
  | (s1, .ok none) => (s1, .diverge, false)
  | (s1, .ok (some false)) => (s1, .lockedExc, false)
  | (s1, .ok (some true)) =>
    match body s1 with
    | .error serr => (serr, .bodyExc, false)
    | .ok s2 =>
      match release s2 key (some owner) with
      | (s3, .ok _) => (s3, .bodyOk, true)
      | (s3, .error _) => (s3, .lockExc, true)

/-- A record held by owner `x` with no expiry, used in several concrete
evaluations. -/
def heldByX : LockRecord :=
  { id := "a", locked := true, owner := some "x", created := some 0, expire := none }

/-- When `find_and_modify_free` matches nothing, the store is returned
unchanged. -/
lemma fam_none_eq (key : String) (owner : Option String) (s : Store)
    (h : (find_and_modify_free key owner s).1 = none) :
    (find_and_modify_free key owner s).2 = s := by
  induction s with
  | nil => rfl
  | cons r rest ih =>
    by_cases hm : rel_matches key owner r = true
    · simp [find_and_modify_free, hm] at h
    · simp only [find_and_modify_free, hm, if_neg, Bool.false_eq_true,
        not_false_eq_true, if_false] at h ⊢
      exact congrArg (r :: ·) (ih h)

/-- When `find_and_modify_free` returns a prior record, that record is the
first match in the store, and the new store replaces exactly it with the
free state. -/
lemma fam_some_decomp (key : String) (owner : Option String) (s : Store)
    (old : LockRecord) (h : (find_and_modify_free key owner s).1 = some old) :
    rel_matches key owner old = true ∧
    ∃ pre post, s = pre ++ old :: post ∧
      (∀ r ∈ pre, rel_matches key owner r = false) ∧
      (find_and_modify_free key owner s).2 = pre ++ freeRecord old.id :: post := by
  induction s with
  | nil => simp [find_and_modify_free] at h
  | cons r rest ih =>
    by_cases hm : rel_matches key owner r = true
    · simp only [find_and_modify_free, hm, if_true, Option.some.injEq] at h
      subst h
      exact ⟨hm, [], rest, rfl, by simp, by simp [find_and_modify_free, hm]⟩
    · simp only [find_and_modify_free, hm, if_neg, Bool.false_eq_true,
        not_false_eq_true, if_false] at h ⊢
      obtain ⟨hmatch, pre, post, hs, hpre, hsnd⟩ := ih h
      refine ⟨hmatch, r :: pre, post, by rw [hs]; rfl, ?_, by rw [hsnd]; rfl⟩
      intro q hq
      rcases List.mem_cons.mp hq with hq | hq
      · subst hq; exact Bool.eq_false_iff.mpr hm
      · exact hpre q hq

/-- C1: the claim says a contended attempt succeeds iff exactly one record
was updated, and that while the record stays held and unexpired the call
returns failure once the deadline passes.  The code is wrong: line 76
tests `self._try_get_lock(...) is not None`, and `_try_get_lock` only ever
returns `True` or `False`, so the very first contended attempt is treated
as success.  Here owner `x` holds key `a` with no expiry, the attempt at
time 5 matches zero records, yet `lock` by `y` returns `True` with the
store unchanged (still owned by `x`). -/
theorem lock_contended_returns_success_bug :
    (List.filter (acq_matches "a" 5) [heldByX]).length = 0 ∧
    lock [heldByX] "a" "y" (some 1) none 0 0 0 (fun _ => (5, 5)) 10
      = ([heldByX], .ok (some true)) :=
  ⟨rfl, rfl⟩

/-- C2: the claim says at most one acquisition by distinct owners succeeds
until release or expiry.  In this sequential interleaving owner `x`
acquires key `a` from the empty store (insert fast path) and then owner
`y`, calling with a timeout while the record is still held and has no
expiry, also gets `True` (because of the `is not None` test at line 76):
two successes with no release and no expiry in between. -/
theorem two_owners_both_succeed_bug :
    lock ([] : Store) "a" "x" none none 0 0 0 (fun _ => (0, 0)) 1
      = ([heldByX], .ok (some true)) ∧
    lock [heldByX] "a" "y" (some 1) none 5 5 5 (fun _ => (6, 6)) 10
      = ([heldByX], .ok (some true)) :=
  ⟨rfl, rfl⟩

/-- C6: the claim says that after a zero-match attempt the loop sleeps a
fixed 100 ms interval and retries, re-checking the deadline.  The loop
body (lines 75-80) contains no sleep at all (`DEFAULT_SLEEP_STEP` is
declared at line 17 and never used), and because of the `is not None`
test a zero-match attempt does not even retry: at time 5, far before the
deadline 0 + 1000, the loop returns success immediately. -/
theorem lockLoop_returns_without_retry_bug :
    (List.filter (acq_matches "a" 5) [heldByX]).length = 0 ∧
    lockLoop (fun _ => (5, 5)) "a" "y" none 0 1000 0 10 [heldByX]
      = ([heldByX], .ok (some true)) :=
  ⟨rfl, rfl⟩

/-- C3 counterexample: owner `x` acquires key `a` through the context
manager and the body raises; the exception propagates (`bodyExc`),
`release` is not invoked (the flag is `false`), and the record stays
held by `x` — refuting the claim that release happens in every case. -/
theorem call_body_raises_no_release :
    call_ctx ([] : Store) "a" "x" none none 0 0 0 (fun _ => (0, 0)) 1
        (fun st => .error st)
      = ([heldByX], .bodyExc, false) :=
  rfl

/-- When the acquisition step of the context manager returns `True`, the
rest of `__call__` is the body followed (on normal completion only) by
`release`. -/
lemma call_ctx_acquired (s : Store) (key owner : String)
    (timeout expire_after : Option Int) (t_exp t_created t_start : Int)
    (clock : Nat → Int × Int) (fuel : Nat) (body : Store → Except Store Store)
    (s1 : Store)
    (hl : lock s key owner timeout expire_after t_exp t_created t_start clock fuel
      = (s1, .ok (some true))) :
    call_ctx s key owner timeout expire_after t_exp t_created t_start clock fuel body
      = match body s1 with
        | .error serr => (serr, .bodyExc, false)
        | .ok s2 =>
          match release s2 key (some owner) with
          | (s3, .ok _) => (s3, .bodyOk, true)
          | (s3, .error _) => (s3, .lockExc, true) := by
  unfold call_ctx
  rw [hl]

/-- C3 amended: after a successful acquisition the context manager invokes
`release` exactly when the body finishes normally; when the body raises,
the exception propagates and `release` is not invoked (lines 46-47 have
no try/finally around the yield). -/
theorem call_release_on_normal_exit_only
    (s : Store) (key owner : String) (timeout expire_after : Option Int)
    (t_exp t_created t_start : Int) (clock : Nat → Int × Int) (fuel : Nat)
    (body : Store → Except Store Store)
    (hacq : (lock s key owner timeout expire_after t_exp t_created t_start clock fuel).2
      = .ok (some true)) :
    (∀ s2, body (lock s key owner timeout expire_after t_exp t_created t_start clock fuel).1
        = .ok s2 →
      (call_ctx s key owner timeout expire_after t_exp t_created t_start clock fuel body).2.2
        = true) ∧
    (∀ serr, body (lock s key owner timeout expire_after t_exp t_created t_start clock fuel).1
        = .error serr →
      call_ctx s key owner timeout expire_after t_exp t_created t_start clock fuel body
        = (serr, .bodyExc, false)) := by
  have hl := (Prod.mk.eta
    (p := lock s key owner timeout expire_after t_exp t_created t_start clock fuel)).symm
  rw [hacq] at hl
  have hc := call_ctx_acquired s key owner timeout expire_after t_exp t_created t_start
    clock fuel body _ hl
  constructor
  · intro s2 hb
    rw [hc, hb]
    dsimp only
    rcases release s2 key (some owner) with ⟨s3, r⟩
    cases r <;> rfl
  · intro serr hb
    rw [hc, hb]

/-- Witness for the amended C3 theorem: from the empty store, owner `x`
acquires key `a`; a body that finishes normally leads to `release` being
invoked. -/
theorem call_release_on_normal_exit_only_witness :
    (call_ctx ([] : Store) "a" "x" none none 0 0 0 (fun _ => (0, 0)) 1
      (fun st => .ok st)).2.2 = true :=
  (call_release_on_normal_exit_only [] "a" "x" none none 0 0 0 (fun _ => (0, 0)) 1
    (fun st => .ok st) rfl).1 _ rfl

/-- C4 counterexample: owner `x` acquires key `a` at time 0 with a
10-tick lease (record `created = 0`, `expire = 10`), renews at time 3
(new `expire = 13`), renews again at time 6.  `touch` computes
`now + (expire - created)` and never updates `created`, so the second
renewal writes `expire = 6 + (13 - 0) = 19`, a 13-tick lease — not the
`6 + 10 = 16` the claim requires. -/
theorem touch_second_renewal_grows :
    (touch (touch (lock ([] : Store) "a" "x" none (some 10) 0 0 0
        (fun _ => (0, 0)) 1).1 "a" (some "x") 3).1 "a" (some "x") 6).1
      = [{ id := "a", locked := true, owner := some "x",
           created := some 0, expire := some 19 }] ∧
    (19 : Int) ≠ 6 + 10 :=
  ⟨rfl, by decide⟩

/-- C4 amended: a successful renewal of a record with an expiry sets the
new `expire` to `now + (expire - created)`.  Since `created` is never
updated, a renewal performed when `expire - created = d` (in particular
the first renewal after acquiring a `d`-tick lease) yields a `d`-tick
lease, but later renewals use the grown difference, so the lease length
grows by the time elapsed between creation and the previous renewal. -/
theorem touch_sets_expire_now_plus_diff
    (s : Store) (key : String) (ow : Option String) (now : Int)
    (r : LockRecord) (e c : Int)
    (hfind : find_one s key ow = some r) (hexp : r.expire = some e)
    (hcre : r.created = some c) :
    touch s key ow now = (set_expire s key ow (now + (e - c)), .ok ()) ∧
    ∀ d : Int, e = c + d → now + (e - c) = now + d := by
  constructor
  · simp only [touch, hfind, hexp, hcre]
  · intro d hd
    omega

/-- Witness for the amended C4 theorem: a record acquired at time 0 with a
10-tick lease, renewed at time 3, gets `expire = 3 + (10 - 0)`. -/
theorem touch_sets_expire_now_plus_diff_witness :
    touch [({ id := "a", locked := true, owner := some "x",
              created := some 0, expire := some 10 } : LockRecord)]
        "a" (some "x") 3
      = (set_expire [{ id := "a", locked := true, owner := some "x",
                       created := some 0, expire := some 10 }]
          "a" (some "x") (3 + (10 - 0)), .ok ()) :=
  (touch_sets_expire_now_plus_diff
    [{ id := "a", locked := true, owner := some "x",
       created := some 0, expire := some 10 }]
    "a" (some "x") 3 _ 10 0 rfl rfl rfl).1

/-- C5: `release` resets the first record matching `{key, owner}` to the
free state and succeeds when that record was held; it raises
`MongoLockException` when nothing matched (leaving the store unchanged)
or when the matched record was already free — in particular releasing
from the free state never silently succeeds. -/
theorem release_spec (s : Store) (key : String) (owner : Option String) :
    ((find_and_modify_free key owner s).1 = none →
       release s key owner = (s, .error .mongoLockException)) ∧
    (∀ old, (find_and_modify_free key owner s).1 = some old →
       (old.locked = true →
          (release s key owner).2 = .ok () ∧
          (freeRecord old.id).locked = false ∧ (freeRecord old.id).owner = none ∧
          (freeRecord old.id).created = none ∧ (freeRecord old.id).expire = none ∧
          ∃ pre post, s = pre ++ old :: post ∧
            (∀ r ∈ pre, rel_matches key owner r = false) ∧
            (release s key owner).1 = pre ++ freeRecord old.id :: post) ∧
       (old.locked = false →
          (release s key owner).2 = .error .mongoLockException)) := by
  constructor
  · intro h
    unfold release
    rw [h, fam_none_eq key owner s h]
  · intro old h
    obtain ⟨hmatch, pre, post, hs, hpre, hsnd⟩ := fam_some_decomp key owner s old h
    constructor
    · intro hlocked
      unfold release
      rw [h]
      dsimp only
      rw [if_pos hlocked]
      exact ⟨rfl, rfl, rfl, rfl, rfl, pre, post, hs, hpre, hsnd⟩
    · intro hfree
      unfold release
      rw [h]
      dsimp only
      rw [if_neg (by simp [hfree])]

/-- Witness for the C5 theorem: releasing key `a` held by owner `x`
succeeds and frees the record. -/
theorem release_spec_witness :
    (release [({ id := "a", locked := true, owner := some "x",
                 created := some 3, expire := none } : LockRecord)]
       "a" (some "x")).2 = .ok () :=
  (((release_spec [{ id := "a", locked := true, owner := some "x",
                     created := some 3, expire := none }]
      "a" (some "x")).2 _ rfl).1 rfl).1

/-- C7: when a record for the key already exists (so the insert fast path
raises `DuplicateKeyError`) and no timeout was given, `lock` returns
`False` immediately: the store is unchanged and the result does not
depend on the loop clock or fuel, so no conditional-update attempt is
made. -/
theorem lock_no_timeout_fails_immediately
    (s : Store) (key owner : String) (expire_after : Option Int)
    (t_exp t_created t_start : Int) (clock : Nat → Int × Int) (fuel : Nat)
    (h : s.any (fun q => q.id == key) = true) :
    lock s key owner none expire_after t_exp t_created t_start clock fuel
      = (s, .ok (some false)) := by
  simp [lock, insert, h]

/-- Witness for the C7 theorem: key `a` is held; a `lock` call by `y`
without a timeout fails at once. -/
theorem lock_no_timeout_fails_immediately_witness :
    (List.any [heldByX] (fun q => q.id == "a") = true) ∧
    lock [heldByX] "a" "y" none none 0 0 0 (fun _ => (0, 0)) 3
      = ([heldByX], .ok (some false)) :=
  ⟨rfl, lock_no_timeout_fails_immediately [heldByX] "a" "y" none 0 0 0
    (fun _ => (0, 0)) 3 rfl⟩

/-- C8: when the store reports more than one record affected by the
single-key conditional update, `_try_get_lock` raises
`MongoLockException`, and the acquisition loop propagates the exception
instead of retrying. -/
theorem try_get_lock_multi_match_raises
    (s : Store) (key owner : String) (expireAt : Option Int) (dtnow : Int)
    (clock : Nat → Int × Int) (start_time timeout : Int) (fuel : Nat)
    (hc : (clock 0).1 = dtnow)
    (h : 1 < (s.filter (acq_matches key dtnow)).length) :
    (try_get_lock s key owner expireAt dtnow).2 = .error .mongoLockException ∧
    (lockLoop clock key owner expireAt start_time timeout 0 (fuel + 1) s).2
      = .error .mongoLockException := by
  have h1 : (try_get_lock s key owner expireAt dtnow).2
      = .error .mongoLockException := by
    simp [try_get_lock, h]
  refine ⟨h1, ?_⟩
  unfold lockLoop
  rw [hc]
  dsimp only
  rw [h1]

/-- Witness for the C8 theorem: two records for key `a` both match the
acquisition predicate, and both the single attempt and the loop raise. -/
theorem try_get_lock_multi_match_raises_witness :
    (1 < (List.filter (acq_matches "a" 0)
        [freeRecord "a", freeRecord "a"]).length) ∧
    (try_get_lock [freeRecord "a", freeRecord "a"] "a" "y" none 0).2
      = .error .mongoLockException :=
  ⟨by decide, (try_get_lock_multi_match_raises [freeRecord "a", freeRecord "a"]
    "a" "y" none 0 (fun _ => (0, 0)) 0 1 5 rfl (by decide)).1⟩

/-- C9: a `lock` call with `expire_after = 0` is treated by the Python
truthiness test at line 60 as no expiry: the freshly inserted record has
`expire = none`, so the lock never expires. -/
theorem lock_expire_zero_writes_null
    (s : Store) (key owner : String) (timeout : Option Int)
    (t_exp t_created t_start : Int) (clock : Nat → Int × Int) (fuel : Nat)
    (h : s.any (fun q => q.id == key) = false) :
    lock s key owner timeout (some 0) t_exp t_created t_start clock fuel
      = (s ++ [{ id := key, locked := true, owner := some owner,
                 created := some t_created, expire := none }], .ok (some true)) := by
  simp [lock, insert, expire_abs, h]

/-- Witness for the C9 theorem: acquiring a fresh key with
`expire_after = 0` writes a record with `expire = none`. -/
theorem lock_expire_zero_writes_null_witness :
    (List.any ([] : Store) (fun q => q.id == "a") = false) ∧
    lock ([] : Store) "a" "x" none (some 0) 7 7 7 (fun _ => (0, 0)) 1
      = ([{ id := "a", locked := true, owner := some "x",
            created := some 7, expire := none }], .ok (some true)) :=
  ⟨rfl, lock_expire_zero_writes_null [] "a" "x" none 7 7 7 (fun _ => (0, 0)) 1 rfl⟩

/-- C10: a successful `touch` on a record found with an expiry only writes
the `expire` field (via `$set`); pointwise over the store, every record
keeps its `id`, `locked`, `owner` and `created` fields. -/
theorem touch_frame (s : Store) (key : String) (ow : Option String) (now : Int)
    (r : LockRecord) (e : Int)
    (hfind : find_one s key ow = some r) (hexp : r.expire = some e)
    (hok : (touch s key ow now).2 = .ok ()) :
    List.Forall₂ (fun a b => b.id = a.id ∧ b.locked = a.locked ∧
      b.owner = a.owner ∧ b.created = a.created) s (touch s key ow now).1 := by
  cases hcre : r.created with
  | none =>
    rw [show (touch s key ow now).2 = .error .typeError by
      simp only [touch, hfind, hexp, hcre]] at hok
    exact absurd hok (by simp)
  | some c =>
    have ht : (touch s key ow now).1 = set_expire s key ow (now + (e - c)) := by
      simp only [touch, hfind, hexp, hcre]
    rw [ht]
    unfold set_expire
    rw [List.forall₂_map_right_iff]
    rw [List.forall₂_same]
    intro x _
    by_cases hm : rel_matches key ow x = true <;> simp [hm]

/-- Witness for the C10 theorem: renewing a held record with an expiry
leaves its identity, lock flag, owner and creation time unchanged. -/
theorem touch_frame_witness :
    List.Forall₂ (fun a b => b.id = a.id ∧ b.locked = a.locked ∧
        b.owner = a.owner ∧ b.created = a.created)
      [({ id := "a", locked := true, owner := some "x",
          created := some 0, expire := some 10 } : LockRecord)]
      (touch [({ id := "a", locked := true, owner := some "x",
                 created := some 0, expire := some 10 } : LockRecord)]
        "a" (some "x") 3).1 :=
  touch_frame [{ id := "a", locked := true, owner := some "x",
                 created := some 0, expire := some 10 }]
    "a" (some "x") 3 _ 10 rfl rfl rfl

end MongoLock
